import Mathlib

/-!
Shallow embedding of the feature/signal pipeline of `FuturesTradingStrategy`
(src/initial.py) and of the sizing/stop computation in `run_experiment`.

Modelling conventions:
* pandas float values are rationals; pandas `NaN` is `none : Option ℚ`.
* A pandas comparison involving `NaN` yields `False`; the `ogt`/`olt`/... helpers
  below return `false` when either side is `none`.
* pandas division by zero (which float arithmetic turns into `inf` or `NaN`,
  both of which are "not a finite number" and compare as `False` downstream)
  is modelled as `none`.
* Rolling windows follow pandas defaults: `rolling(w)` has `min_periods = w`,
  so a window is defined only when all `w` entries exist and are not `NaN`.
* `Series.shift(k)` of a boolean series used in a boolean context resolves the
  first `k` undefined entries to `false`.
* The vectorbt indicator outputs that the strategy consumes (RSI, MACD
  histogram, Bollinger bands, ATR, EMAs, volume MA, the 4h multi-timeframe
  trend flag) are external library results: they enter the model as input
  series of `StratInput`, and everything the repository itself computes from
  them is embedded.
-/

namespace AlertBot

/-- Binary operation on optional rationals; `none` (NaN) propagates. -/
def omap2 (g : ℚ → ℚ → ℚ) : Option ℚ → Option ℚ → Option ℚ
  | some a, some b => some (g a b)
  | _, _ => none

/-- Subtraction with NaN propagation. -/
def osub (x y : Option ℚ) : Option ℚ := omap2 (fun a b => a - b) x y

/-- Division: NaN propagates, and division by zero is undefined (pandas floats
produce `inf`/`NaN` there; neither is a finite value). -/
def odiv : Option ℚ → Option ℚ → Option ℚ
  | some a, some b => if b = 0 then none else some (a / b)
  | _, _ => none

/-- `x > y` with pandas NaN semantics: any comparison with NaN is `false`. -/
def ogt : Option ℚ → Option ℚ → Bool
  | some a, some b => decide (b < a)
  | _, _ => false

/-- `x < y` with pandas NaN semantics. -/
def olt : Option ℚ → Option ℚ → Bool
  | some a, some b => decide (a < b)
  | _, _ => false

/-- `x ≥ y` with pandas NaN semantics. -/
def oge : Option ℚ → Option ℚ → Bool
  | some a, some b => decide (b ≤ a)
  | _, _ => false

/-- `x ≤ y` with pandas NaN semantics. -/
def ole : Option ℚ → Option ℚ → Bool
  | some a, some b => decide (a ≤ b)
  | _, _ => false

/-- Boolean to float, as pandas `.astype(int)` on a boolean series. -/
def b2q (b : Bool) : ℚ := if b then 1 else 0

/-- pandas/numpy `clip(lo, hi)` on a finite value. -/
def clipQ (lo hi x : ℚ) : ℚ := min hi (max lo x)

/-- pandas `fillna(c)` on a scalar. -/
def ofill (c : ℚ) : Option ℚ → ℚ
  | none => c
  | some x => x

/-- pandas `Series.shift(k)` on an optional-valued series. -/
def oshift (k : ℕ) (f : ℕ → Option ℚ) (i : ℕ) : Option ℚ :=
  if i < k then none else f (i - k)

/-- pandas `Series.shift(k)` on a boolean series, read back in a boolean
context (missing leading entries resolve to `false`). -/
def bshift (k : ℕ) (f : ℕ → Bool) (i : ℕ) : Bool :=
  if i < k then false else f (i - k)

/-- pandas `Series.diff()` (lag-1 difference). -/
def diff1 (f : ℕ → Option ℚ) (i : ℕ) : Option ℚ := osub (f i) (oshift 1 f i)

/-- The `w` window entries ending at bar `i`, most recent first. -/
def windowL (w : ℕ) (f : ℕ → Option ℚ) (i : ℕ) : List (Option ℚ) :=
  (List.range w).map fun j => f (i - j)

/-- All-or-nothing sequencing of a list of optional values. -/
def seqO : List (Option ℚ) → Option (List ℚ)
  | [] => some []
  | none :: _ => none
  | some x :: rest => (seqO rest).map (fun ys => x :: ys)

/-- Arithmetic mean of a list of rationals. -/
def meanL (xs : List ℚ) : ℚ := xs.sum / xs.length

/-- pandas `rolling(w).mean()` with the default `min_periods = w`. -/
def rollingMean (w : ℕ) (f : ℕ → Option ℚ) (i : ℕ) : Option ℚ :=
  if i + 1 < w then none else (seqO (windowL w f i)).map meanL

/-- Insert into an ascending-sorted list. -/
def insertSortedQ (x : ℚ) : List ℚ → List ℚ
  | [] => [x]
  | y :: ys => if x ≤ y then x :: y :: ys else y :: insertSortedQ x ys

/-- Insertion sort, ascending. -/
def sortQ : List ℚ → List ℚ
  | [] => []
  | x :: xs => insertSortedQ x (sortQ xs)

/-- Linear-interpolation quantile of an ascending-sorted list
(pandas default interpolation). -/
def quantileSorted (ws : List ℚ) (q : ℚ) : ℚ :=
  let pos : ℚ := q * ((ws.length : ℚ) - 1)
  let j : ℕ := (Rat.floor pos).toNat
  let lo := ws.getD j 0
  let hi := ws.getD (j + 1) lo
  lo + (pos - (j : ℚ)) * (hi - lo)

/-- pandas `rolling(w).quantile(q)` with the default `min_periods = w`. -/
def rollingQuantile (w : ℕ) (q : ℚ) (f : ℕ → Option ℚ) (i : ℕ) : Option ℚ :=
  if i + 1 < w then none else
    (seqO (windowL w f i)).map (fun xs => quantileSorted (sortQ xs) q)

/-- Running exponentially-weighted mean value (`adjust=False` recurrence),
carrying the last value across missing inputs. -/
def ewmAux (a : ℚ) (f : ℕ → Option ℚ) : ℕ → Option ℚ
  | 0 => f 0
  | i + 1 =>
    match ewmAux a f i, f (i + 1) with
    | none, v => v
    | some y, none => some y
    | some y, some x => some (a * x + (1 - a) * y)

/-- Number of non-NaN observations among bars `0..i`. -/
def countSome (f : ℕ → Option ℚ) : ℕ → ℕ
  | 0 => if (f 0).isSome then 1 else 0
  | i + 1 => countSome f i + (if (f (i + 1)).isSome then 1 else 0)

/-- `vbt.MA.run(·, window, ewm=True).ma`: exponentially-weighted mean with
`span = window`, `adjust = False` and `min_periods = window` non-NaN
observations. -/
def ewmMA (w : ℕ) (f : ℕ → Option ℚ) (i : ℕ) : Option ℚ :=
  if countSome f i < w then none else ewmAux (2 / ((w : ℚ) + 1)) f i

/-- Tie test used by the rank computations, written through the order so that
it evaluates by plain comparisons. -/
def qeq (x y : ℚ) : Bool := !decide (x < y) && !decide (y < x)

/-- pandas `Series.rank(pct=True)` (average method, NaN kept) at bar `i`
over a series of length `n`. -/
def fullRankPct (n : ℕ) (f : ℕ → Option ℚ) (i : ℕ) : Option ℚ :=
  (f i).map (fun v =>
    let vals := (List.range n).filterMap f
    (((vals.filter (fun x => decide (x < v))).length : ℚ) +
      (((vals.filter (fun x => qeq x v)).length : ℚ) + 1) / 2) / (vals.length : ℚ))

/-- pandas `rolling(w).rank(pct=True)`: percentile rank of the current bar
within its trailing window (average method, `min_periods = w`). -/
def rollingRankPct (w : ℕ) (f : ℕ → Option ℚ) (i : ℕ) : Option ℚ :=
  if i + 1 < w then none else
    (seqO (windowL w f i)).map (fun xs =>
      (((xs.filter (fun x => decide (x < xs.headI))).length : ℚ) +
        (((xs.filter (fun x => qeq x xs.headI)).length : ℚ) + 1) / 2) / (w : ℚ))

/-- Input bars plus the vectorbt indicator outputs the strategy consumes.
`close`, `volume` and `funding_rate` (already `fillna(0)`-ed) are the raw
dataframe columns; the optional-valued series are vectorbt library results. -/
structure StratInput where
  n : ℕ
  close : ℕ → ℚ
  volume : ℕ → ℚ
  fundingRate : ℕ → ℚ
  rsi : ℕ → Option ℚ
  macdHist : ℕ → Option ℚ
  bbUpper : ℕ → Option ℚ
  bbMiddle : ℕ → Option ℚ
  bbLower : ℕ → Option ℚ
  atr : ℕ → Option ℚ
  emaFast : ℕ → Option ℚ
  emaMedium : ℕ → Option ℚ
  emaSlow : ℕ → Option ℚ
  volumeMa : ℕ → Option ℚ
  mtfTrendAligned : ℕ → Bool

/-- `bb_width = (bb_upper - bb_lower) / bb_middle`. -/
def bbWidth (S : StratInput) (i : ℕ) : Option ℚ :=
  odiv (osub (S.bbUpper i) (S.bbLower i)) (S.bbMiddle i)

/-- `norm_atr = atr / close`. -/
def normAtr (S : StratInput) (i : ℕ) : Option ℚ :=
  odiv (S.atr i) (some (S.close i))

/-- `volume_ratio = volume / volume_ma`. -/
def volumeRatioVal (S : StratInput) (i : ℕ) : Option ℚ :=
  odiv (some (S.volume i)) (S.volumeMa i)

/-- `returns = close.pct_change()`. -/
def returnsSeries (S : StratInput) (i : ℕ) : Option ℚ :=
  if i = 0 then none
  else if S.close (i - 1) = 0 then none
  else some ((S.close i - S.close (i - 1)) / S.close (i - 1))

/-- `price_velocity = returns.rolling(3).mean()`. -/
def priceVelocity (S : StratInput) : ℕ → Option ℚ :=
  rollingMean 3 (returnsSeries S)

/-- `price_acceleration = price_velocity.diff()`. -/
def priceAcceleration (S : StratInput) : ℕ → Option ℚ :=
  diff1 (priceVelocity S)

/-- `price_accel_slope = price_acceleration.rolling(3).mean()`. -/
def priceAccelSlope (S : StratInput) : ℕ → Option ℚ :=
  rollingMean 3 (priceAcceleration S)

/-- `funding_momentum = funding_rate.diff(8)`. -/
def fundingMomentum (S : StratInput) (i : ℕ) : Option ℚ :=
  if i < 8 then none else some (S.fundingRate i - S.fundingRate (i - 8))

/-- `funding_acceleration = funding_momentum.diff()`. -/
def fundingAcceleration (S : StratInput) : ℕ → Option ℚ :=
  diff1 (fundingMomentum S)

/-- `funding_acceleration_rising = funding_acceleration >
funding_acceleration.rolling(24).quantile(0.95)`. -/
def fundingAccelerationRising (S : StratInput) (i : ℕ) : Bool :=
  ogt (fundingAcceleration S i) (rollingQuantile 24 (95 / 100) (fundingAcceleration S) i)

/-- `funding_velocity = vbt.MA.run(funding_momentum, 3, ewm=True).ma`. -/
def fundingVelocity (S : StratInput) : ℕ → Option ℚ :=
  ewmMA 3 (fundingMomentum S)

/-- `funding_stress_4h = funding_rate.rolling(4).mean() - funding_rate.rolling(24).mean()`. -/
def fundingStress4h (S : StratInput) (i : ℕ) : Option ℚ :=
  osub (rollingMean 4 (fun j => some (S.fundingRate j)) i)
    (rollingMean 24 (fun j => some (S.fundingRate j)) i)

/-- `funding_stress_8h = funding_rate.rolling(8).mean() - funding_rate.rolling(24).mean()`. -/
def fundingStress8h (S : StratInput) (i : ℕ) : Option ℚ :=
  osub (rollingMean 8 (fun j => some (S.fundingRate j)) i)
    (rollingMean 24 (fun j => some (S.fundingRate j)) i)

/-- `cross_timeframe_funding_divergence = (funding_stress_4h > 0) & (funding_stress_8h > 0)`. -/
def crossTimeframeFundingDivergence (S : StratInput) (i : ℕ) : Bool :=
  ogt (fundingStress4h S i) (some 0) && ogt (fundingStress8h S i) (some 0)

/-- `funding_jerk = funding_acceleration.diff()`. -/
def fundingJerk (S : StratInput) : ℕ → Option ℚ :=
  diff1 (fundingAcceleration S)

/-- `funding_bearish_divergence = (close > close.shift(8)) & (funding_rate < funding_rate.shift(8))`. -/
def fundingBearishDivergence (S : StratInput) (i : ℕ) : Bool :=
  if i < 8 then false
  else decide (S.close (i - 8) < S.close i) && decide (S.fundingRate i < S.fundingRate (i - 8))

/-- `funding_bullish_divergence = (close < close.shift(8)) & (funding_rate > funding_rate.shift(8))`. -/
def fundingBullishDivergence (S : StratInput) (i : ℕ) : Bool :=
  if i < 8 then false
  else decide (S.close i < S.close (i - 8)) && decide (S.fundingRate (i - 8) < S.fundingRate i)

/-- `funding_extreme_positive = funding_rate > 0.00015`. -/
def fundingExtremePositive (S : StratInput) (i : ℕ) : Bool :=
  decide (3 / 20000 < S.fundingRate i)

/-- `funding_extreme_negative = funding_rate < -0.00015`. -/
def fundingExtremeNegative (S : StratInput) (i : ℕ) : Bool :=
  decide (S.fundingRate i < -(3 / 20000))

/-- `funding_turned_negative = (funding_rate < 0) & (funding_rate.shift(1) >= 0)`. -/
def fundingTurnedNegative (S : StratInput) (i : ℕ) : Bool :=
  if i = 0 then false
  else decide (S.fundingRate i < 0) && decide (0 ≤ S.fundingRate (i - 1))

/-- `funding_turned_positive = (funding_rate > 0) & (funding_rate.shift(1) <= 0)`. -/
def fundingTurnedPositive (S : StratInput) (i : ℕ) : Bool :=
  if i = 0 then false
  else decide (0 < S.fundingRate i) && decide (S.fundingRate (i - 1) ≤ 0)

/-- `vol_low_threshold = norm_atr.rolling(50).quantile(0.25)`. -/
def volLowThreshold (S : StratInput) : ℕ → Option ℚ :=
  rollingQuantile 50 (1 / 4) (normAtr S)

/-- `vol_high_threshold = norm_atr.rolling(50).quantile(0.75)`. -/
def volHighThreshold (S : StratInput) : ℕ → Option ℚ :=
  rollingQuantile 50 (3 / 4) (normAtr S)

/-- `low_volatility = norm_atr < vol_low_threshold`. -/
def lowVolatility (S : StratInput) (i : ℕ) : Bool :=
  olt (normAtr S i) (volLowThreshold S i)

/-- `high_volatility = norm_atr >= vol_high_threshold`. -/
def highVolatility (S : StratInput) (i : ℕ) : Bool :=
  oge (normAtr S i) (volHighThreshold S i)

/-- `vol_expanding = bb_width > bb_width.shift(5)`. -/
def volExpanding (S : StratInput) (i : ℕ) : Bool :=
  ogt (bbWidth S i) (oshift 5 (bbWidth S) i)

/-- `vol_contracting = bb_width < bb_width.shift(5)`. -/
def volContracting (S : StratInput) (i : ℕ) : Bool :=
  olt (bbWidth S i) (oshift 5 (bbWidth S) i)

/-- `vol_squeeze = bb_width < bb_width.rolling(25).quantile(0.2)`. -/
def volSqueeze (S : StratInput) (i : ℕ) : Bool :=
  olt (bbWidth S i) (rollingQuantile 25 (1 / 5) (bbWidth S) i)

/-- `atr_4h = atr.rolling(4).mean()`. -/
def atr4h (S : StratInput) : ℕ → Option ℚ :=
  rollingMean 4 S.atr

/-- `atr_24h = atr.rolling(24).mean()`. -/
def atr24h (S : StratInput) : ℕ → Option ℚ :=
  rollingMean 24 S.atr

/-- `vol_ratio_4h = atr_1h / (atr_4h + 1e-8)`. -/
def volRatio4h (S : StratInput) (i : ℕ) : Option ℚ :=
  odiv (S.atr i) ((atr4h S i).map (fun x => x + 1 / 100000000))

/-- `vol_ratio_24h = atr_1h / (atr_24h + 1e-8)`. -/
def volRatio24h (S : StratInput) (i : ℕ) : Option ℚ :=
  odiv (S.atr i) ((atr24h S i).map (fun x => x + 1 / 100000000))

/-- `vol_cascade = (vol_ratio_4h > 1.1) & (vol_ratio_24h > 1.3)`. -/
def volCascade (S : StratInput) (i : ℕ) : Bool :=
  ogt (volRatio4h S i) (some (11 / 10)) && ogt (volRatio24h S i) (some (13 / 10))

/-- `trend_strength`: EMA-alignment score `(full + 0.5 * partial) / 1.5`. -/
def trendStrength (S : StratInput) (i : ℕ) : ℚ :=
  (b2q (ogt (S.emaFast i) (S.emaMedium i) && ogt (S.emaMedium i) (S.emaSlow i)) +
    b2q (ogt (S.emaFast i) (S.emaSlow i) && ogt (S.emaMedium i) (S.emaSlow i)) * (1 / 2)) / (3 / 2)

/-- `momentum_strength = np.clip(price_velocity * 25, 0, 1)` (NaN propagates). -/
def momentumStrength (S : StratInput) (i : ℕ) : Option ℚ :=
  (priceVelocity S i).map (fun x => clipQ 0 1 (x * 25))

/-- `volume_strength = (volume_ratio > 1.0).rolling(3).mean().fillna(0.5)`. -/
def volumeStrength (S : StratInput) (i : ℕ) : ℚ :=
  ofill (1 / 2)
    (rollingMean 3 (fun j => some (b2q (ogt (volumeRatioVal S j) (some 1)))) i)

/-- `market_strength = (0.4 * trend + 0.4 * momentum + 0.2 * volume).clip(0, 1)`. -/
def marketStrength (S : StratInput) (i : ℕ) : Option ℚ :=
  (momentumStrength S i).map (fun m =>
    clipQ 0 1 ((2 / 5) * trendStrength S i + (2 / 5) * m + (1 / 5) * volumeStrength S i))

/-- `vol_cascade_1h = norm_atr > norm_atr.rolling(20).quantile(0.8)`. -/
def volCascade1h (S : StratInput) (i : ℕ) : Bool :=
  ogt (normAtr S i) (rollingQuantile 20 (4 / 5) (normAtr S) i)

/-- `vol_expansion_4h = (vol_ratio_4h > 1.2) & (vol_ratio_24h > 1.4)`. -/
def volExpansion4h (S : StratInput) (i : ℕ) : Bool :=
  ogt (volRatio4h S i) (some (6 / 5)) && ogt (volRatio24h S i) (some (7 / 5))

/-- `vol_cascade_factor = (vol_cascade_1h | vol_expansion_4h).astype(int) * 0.25`. -/
def volCascadeFactor (S : StratInput) (i : ℕ) : ℚ :=
  b2q (volCascade1h S i || volExpansion4h S i) * (1 / 4)

/-- `neg_momentum`: acceleration below its rolling 10th percentile, or slope below `-0.0005`. -/
def negMomentum (S : StratInput) (i : ℕ) : Bool :=
  olt (priceAcceleration S i) (rollingQuantile 20 (1 / 10) (priceAcceleration S) i) ||
    olt (priceAccelSlope S i) (some (-(1 / 2000)))

/-- `neg_momentum_factor = neg_momentum.astype(int) * 0.2`. -/
def negMomentumFactor (S : StratInput) (i : ℕ) : ℚ :=
  b2q (negMomentum S i) * (1 / 5)

/-- `volume_div = (close > close.shift(5)) & (volume_ratio < 0.8)`. -/
def volumeDiv (S : StratInput) (i : ℕ) : Bool :=
  (if i < 5 then false else decide (S.close (i - 5) < S.close i)) &&
    olt (volumeRatioVal S i) (some (4 / 5))

/-- `volume_div_factor = volume_div.astype(int) * 0.15`. -/
def volumeDivFactor (S : StratInput) (i : ℕ) : ℚ :=
  b2q (volumeDiv S i) * (3 / 20)

/-- `price_extreme = (close / ema_slow - 1).abs() > 0.05`. -/
def priceExtreme (S : StratInput) (i : ℕ) : Bool :=
  ogt ((odiv (some (S.close i)) (S.emaSlow i)).map (fun x => |x - 1|)) (some (1 / 20))

/-- `momentum_slowing = price_velocity < price_velocity.rolling(5).mean() * 0.7`. -/
def momentumSlowing (S : StratInput) (i : ℕ) : Bool :=
  olt (priceVelocity S i) ((rollingMean 5 (priceVelocity S) i).map (fun x => x * (7 / 10)))

/-- Local `trend_exhaustion` of the market-state classifier. -/
def trendExhaustionMS (S : StratInput) (i : ℕ) : Bool :=
  priceExtreme S i && momentumSlowing S i

/-- `trend_exhaustion_factor = trend_exhaustion.astype(int) * 0.2`. -/
def trendExhaustionFactor (S : StratInput) (i : ℕ) : ℚ :=
  b2q (trendExhaustionMS S i) * (1 / 5)

/-- `funding_stress_signal = funding_extreme_positive | funding_turned_negative | (funding_jerk < -0.00001)`. -/
def fundingStressSignal (S : StratInput) (i : ℕ) : Bool :=
  fundingExtremePositive S i || fundingTurnedNegative S i ||
    olt (fundingJerk S i) (some (-(1 / 100000)))

/-- `funding_stress_factor = funding_stress_signal.astype(int) * 0.2`. -/
def fundingStressFactor (S : StratInput) (i : ℕ) : ℚ :=
  b2q (fundingStressSignal S i) * (1 / 5)

/-- `funding_acceleration_rising.astype(int) * 0.1`. -/
def fundingAccelRisingFactor (S : StratInput) (i : ℕ) : ℚ :=
  b2q (fundingAccelerationRising S i) * (1 / 10)

/-- `funding_velocity_factor = (funding_velocity > funding_velocity.rolling(20).quantile(0.9)).astype(int) * 0.1`. -/
def fundingVelocityFactor (S : StratInput) (i : ℕ) : ℚ :=
  b2q (ogt (fundingVelocity S i) (rollingQuantile 20 (9 / 10) (fundingVelocity S) i)) * (1 / 10)

/-- `cross_timeframe_funding_factor = cross_timeframe_funding_divergence.astype(int) * 0.1`. -/
def crossTimeframeFundingFactor (S : StratInput) (i : ℕ) : ℚ :=
  b2q (crossTimeframeFundingDivergence S i) * (1 / 10)

/-- `sum(crash_factors)`: the raw weighted sum of the eight risk factors,
before any clamping. -/
def crashFactorSum (S : StratInput) (i : ℕ) : ℚ :=
  volCascadeFactor S i + negMomentumFactor S i + volumeDivFactor S i +
    trendExhaustionFactor S i + fundingStressFactor S i +
    fundingAccelRisingFactor S i + fundingVelocityFactor S i +
    crossTimeframeFundingFactor S i

/-- `raw_prob = sum(crash_factors).clip(0, 1)`. -/
def rawProb (S : StratInput) (i : ℕ) : ℚ :=
  clipQ 0 1 (crashFactorSum S i)

/-- `crash_probability = raw_prob.rolling(4).mean().fillna(0)`. -/
def crashProbability (S : StratInput) (i : ℕ) : ℚ :=
  ofill 0 (rollingMean 4 (fun j => some (rawProb S j)) i)

/-- `early_crash_warning = (crash_probability > 0.3) & (crash_probability <= 0.5)`. -/
def earlyCrashWarning (S : StratInput) (i : ℕ) : Bool :=
  decide (3 / 10 < crashProbability S i) && decide (crashProbability S i ≤ 1 / 2)

/-- `mid_crash_phase = (crash_probability > 0.5) & (crash_probability <= 0.7)`. -/
def midCrashPhase (S : StratInput) (i : ℕ) : Bool :=
  decide (1 / 2 < crashProbability S i) && decide (crashProbability S i ≤ 7 / 10)

/-- `late_crash_phase = crash_probability > 0.7`. -/
def lateCrashPhase (S : StratInput) (i : ℕ) : Bool :=
  decide (7 / 10 < crashProbability S i)

/-- `high_risk = crash_probability > 0.6`. -/
def highRisk (S : StratInput) (i : ℕ) : Bool :=
  decide (3 / 5 < crashProbability S i)

/-- `med_risk = (crash_probability > 0.3) & (crash_probability <= 0.6)`. -/
def medRisk (S : StratInput) (i : ℕ) : Bool :=
  decide (3 / 10 < crashProbability S i) && decide (crashProbability S i ≤ 3 / 5)

/-- `low_risk = crash_probability <= 0.3`. -/
def lowRisk (S : StratInput) (i : ℕ) : Bool :=
  decide (crashProbability S i ≤ 3 / 10)

/-- The `funding_stress` indicator series built by six successive boolean-mask
assignments; a later assignment overrides an earlier one, hence the reversed
`if` chain. -/
def fundingStressVal (S : StratInput) (i : ℕ) : ℚ :=
  if fundingTurnedPositive S i then -(1 / 2)
  else if fundingTurnedNegative S i then 7 / 10
  else if olt (fundingMomentum S i) (some 0) && decide (S.fundingRate i < -(1 / 20000)) then -(2 / 5)
  else if ogt (fundingMomentum S i) (some 0) && decide (1 / 20000 < S.fundingRate i) then 1 / 2
  else if fundingExtremeNegative S i then -(7 / 10)
  else if fundingExtremePositive S i then 9 / 10
  else 0

/-- `bull_market = (market_strength > 0.5) & (trend_strength > 0.4) & ~high_risk`. -/
def bullMarket (S : StratInput) (i : ℕ) : Bool :=
  ogt (marketStrength S i) (some (1 / 2)) && decide (2 / 5 < trendStrength S i) && !highRisk S i

/-- `bear_market = (market_strength < 0.3) & (momentum_strength < 0.2) & ~high_risk`. -/
def bearMarket (S : StratInput) (i : ℕ) : Bool :=
  olt (marketStrength S i) (some (3 / 10)) && olt (momentumStrength S i) (some (1 / 5)) &&
    !highRisk S i

/-- `consolidation = ~bull_market & ~bear_market & ~high_risk`. -/
def consolidation (S : StratInput) (i : ℕ) : Bool :=
  !bullMarket S i && !bearMarket S i && !highRisk S i

/-- `crash_mode = high_risk`. -/
def crashMode (S : StratInput) (i : ℕ) : Bool :=
  highRisk S i

/-- `dynamic_rsi_upper = 60 + (market_strength * 10).clip(0, 10)`. -/
def dynamicRsiUpper (S : StratInput) (i : ℕ) : Option ℚ :=
  (marketStrength S i).map (fun m => 60 + clipQ 0 10 (m * 10))

/-- `base_long_entry` of `get_adaptive_long_signals`. -/
def baseLongEntry (S : StratInput) (i : ℕ) : Bool :=
  olt (S.rsi i) (dynamicRsiUpper S i) &&
    ogt (S.rsi i) (oshift 1 S.rsi i) &&
    ogt (S.macdHist i) (some 0) &&
    ogt (S.macdHist i) (oshift 1 S.macdHist i) &&
    ogt (volumeRatioVal S i) (some (3 / 4)) &&
    ogt (some (S.close i)) (S.emaMedium i) &&
    !highRisk S i

/-- `bull_entry`. -/
def bullEntry (S : StratInput) (i : ℕ) : Bool :=
  bullMarket S i && baseLongEntry S i && S.mtfTrendAligned i &&
    !fundingExtremePositive S i && oge (fundingMomentum S i) (some 0) && !crashMode S i

/-- `consolidation_entry`. -/
def consolidationEntry (S : StratInput) (i : ℕ) : Bool :=
  consolidation S i &&
    olt (some (S.close i)) (S.bbMiddle i) &&
    ogt (some (S.close i)) (S.bbLower i) &&
    olt (S.rsi i) (some 40) &&
    ogt (S.rsi i) (oshift 1 S.rsi i) &&
    volContracting S i &&
    ogt (volumeRatioVal S i) (some 1) &&
    !highRisk S i

/-- `funding_div_entry`. -/
def fundingDivEntry (S : StratInput) (i : ℕ) : Bool :=
  fundingBullishDivergence S i &&
    olt (S.rsi i) (some 45) &&
    olt (some (S.close i)) (S.emaMedium i) &&
    decide (S.fundingRate i < 0) &&
    ogt (volumeRatioVal S i) (some (9 / 10)) &&
    !highRisk S i &&
    decide (crashProbability S i < 1 / 2)

/-- `vol_breakout_entry`. -/
def volBreakoutEntry (S : StratInput) (i : ℕ) : Bool :=
  bshift 1 (volSqueeze S) i &&
    !volSqueeze S i &&
    ogt (some (S.close i)) (oshift 1 S.bbUpper i) &&
    ogt (volumeRatioVal S i) (some (6 / 5)) &&
    S.mtfTrendAligned i &&
    !highRisk S i &&
    ogt (marketStrength S i) (some (3 / 10))

/-- `crash_recovery_entry`. -/
def crashRecoveryEntry (S : StratInput) (i : ℕ) : Bool :=
  bshift 1 (crashMode S) i &&
    !crashMode S i &&
    decide (crashProbability S i < 2 / 5) &&
    (fundingExtremeNegative S i || fundingBullishDivergence S i) &&
    ogt (priceVelocity S i) (some 0) &&
    olt (S.rsi i) (some 60) &&
    ogt (volumeRatioVal S i) (some 1)

/-- `long_entries` before conflict resolution. -/
def longEntries0 (S : StratInput) (i : ℕ) : Bool :=
  bullEntry S i || consolidationEntry S i || fundingDivEntry S i ||
    volBreakoutEntry S i || crashRecoveryEntry S i

/-- `base_long_exit`. -/
def baseLongExit (S : StratInput) (i : ℕ) : Bool :=
  ogt (S.rsi i) (some 70) || olt (S.macdHist i) (some 0) ||
    olt (some (S.close i)) (S.emaFast i)

/-- `bull_exit`. -/
def bullExitSig (S : StratInput) (i : ℕ) : Bool :=
  bullMarket S i && baseLongExit S i && ogt (S.rsi i) (some 65)

/-- `stop_loss_exit = close < ema_fast - 1.5 * atr`. -/
def stopLossExitLong (S : StratInput) (i : ℕ) : Bool :=
  olt (some (S.close i)) (omap2 (fun e a => e - (3 / 2) * a) (S.emaFast i) (S.atr i))

/-- `funding_exit`. -/
def fundingExitSig (S : StratInput) (i : ℕ) : Bool :=
  ((fundingExtremePositive S i && ogt (fundingMomentum S i) (some 0)) ||
      fundingTurnedNegative S i) &&
    (if i = 0 then false else decide (S.close i < S.close (i - 1)))

/-- `vol_expansion_exit`. -/
def volExpansionExit (S : StratInput) (i : ℕ) : Bool :=
  volExpanding S i && ogt (S.rsi i) (some 60) && olt (priceVelocity S i) (some 0) &&
    olt (some (S.close i)) (S.emaMedium i)

/-- `crash_protection_exit = high_risk | crash_mode | (crash_probability > 0.7)`. -/
def crashProtectionExit (S : StratInput) (i : ℕ) : Bool :=
  highRisk S i || crashMode S i || decide (7 / 10 < crashProbability S i)

/-- `long_exits` before conflict resolution. -/
def longExits0 (S : StratInput) (i : ℕ) : Bool :=
  bullExitSig S i || stopLossExitLong S i || fundingExitSig S i ||
    volExpansionExit S i || crashProtectionExit S i

/-- `base_short_entry`. -/
def baseShortEntry (S : StratInput) (i : ℕ) : Bool :=
  ogt (S.rsi i) (some 40) &&
    olt (S.rsi i) (oshift 1 S.rsi i) &&
    olt (S.macdHist i) (some 0) &&
    olt (S.macdHist i) (oshift 1 S.macdHist i) &&
    ogt (volumeRatioVal S i) (some (4 / 5)) &&
    !highRisk S i &&
    !bullMarket S i

/-- `bear_entry`. -/
def bearEntry (S : StratInput) (i : ℕ) : Bool :=
  bearMarket S i && baseShortEntry S i && !S.mtfTrendAligned i &&
    !fundingExtremeNegative S i && ole (fundingMomentum S i) (some 0) &&
    olt (marketStrength S i) (some (2 / 5))

/-- `consolidation_short`. -/
def consolidationShort (S : StratInput) (i : ℕ) : Bool :=
  consolidation S i &&
    ogt (some (S.close i)) (S.bbMiddle i) &&
    olt (some (S.close i)) (S.bbUpper i) &&
    ogt (S.rsi i) (some 60) &&
    olt (S.rsi i) (oshift 1 S.rsi i) &&
    volContracting S i &&
    ogt (volumeRatioVal S i) (some 1) &&
    !highRisk S i &&
    olt (marketStrength S i) (some (1 / 2))

/-- `funding_div_short`. -/
def fundingDivShort (S : StratInput) (i : ℕ) : Bool :=
  fundingBearishDivergence S i &&
    ogt (S.rsi i) (some 55) &&
    ogt (some (S.close i)) (S.emaMedium i) &&
    decide (0 < S.fundingRate i) &&
    ogt (volumeRatioVal S i) (some (9 / 10)) &&
    !highRisk S i &&
    decide (crashProbability S i < 1 / 2)

/-- `crash_short_entry`. -/
def crashShortEntry (S : StratInput) (i : ℕ) : Bool :=
  crashMode S i &&
    olt (priceVelocity S i) (some 0) &&
    olt (S.rsi i) (some 40) &&
    olt (fundingMomentum S i) (some 0) &&
    ogt (volumeRatioVal S i) (some (11 / 10)) &&
    (volExpanding S i || volCascade S i) &&
    ogt (volRatio4h S i) (some 1)

/-- `early_crash_short`. -/
def earlyCrashShort (S : StratInput) (i : ℕ) : Bool :=
  earlyCrashWarning S i &&
    olt (priceVelocity S i) (some 0) &&
    olt (fundingMomentum S i) (some 0) &&
    fundingAccelerationRising S i &&
    crossTimeframeFundingDivergence S i &&
    ogt (volumeRatioVal S i) (some (4 / 5)) &&
    (volExpanding S i || ogt (volRatio4h S i) (some 1)) &&
    olt (S.rsi i) (some 55)

/-- `mid_crash_short`. -/
def midCrashShort (S : StratInput) (i : ℕ) : Bool :=
  midCrashPhase S i && olt (fundingMomentum S i) (some 0) &&
    olt (priceVelocity S i) (some 0) && ogt (volumeRatioVal S i) (some 1)

/-- `short_entries` before conflict resolution. -/
def shortEntries0 (S : StratInput) (i : ℕ) : Bool :=
  bearEntry S i || consolidationShort S i || fundingDivShort S i ||
    crashShortEntry S i || earlyCrashShort S i || midCrashShort S i

/-- `base_short_exit`. -/
def baseShortExit (S : StratInput) (i : ℕ) : Bool :=
  olt (S.rsi i) (some 30) || ogt (S.macdHist i) (some 0) ||
    ogt (some (S.close i)) (S.emaFast i)

/-- `bear_exit`. -/
def bearExitSig (S : StratInput) (i : ℕ) : Bool :=
  bearMarket S i && baseShortExit S i && olt (S.rsi i) (some 35)

/-- `crash_stop_multiplier = np.where(vol_ratio_4h > 1.3, 0.8, 1.5)`. -/
def crashStopMultiplier (S : StratInput) (i : ℕ) : ℚ :=
  if ogt (volRatio4h S i) (some (13 / 10)) then 4 / 5 else 3 / 2

/-- `stop_loss_exit = close > ema_fast + crash_stop_multiplier * atr`. -/
def stopLossExitShort (S : StratInput) (i : ℕ) : Bool :=
  ogt (some (S.close i))
    (omap2 (fun e a => e + crashStopMultiplier S i * a) (S.emaFast i) (S.atr i))

/-- `funding_squeeze = (funding_stress < -0.7) & (price_velocity > 0)`. -/
def fundingSqueezeSig (S : StratInput) (i : ℕ) : Bool :=
  decide (fundingStressVal S i < -(7 / 10)) && ogt (priceVelocity S i) (some 0)

/-- `funding_cover`. -/
def fundingCover (S : StratInput) (i : ℕ) : Bool :=
  ((fundingExtremeNegative S i && olt (fundingMomentum S i) (some 0)) ||
      fundingTurnedPositive S i) &&
    (if i = 0 then false else decide (S.close (i - 1) < S.close i))

/-- `crash_protection_cover`. -/
def crashProtectionCover (S : StratInput) (i : ℕ) : Bool :=
  highRisk S i || crashMode S i || decide (7 / 10 < crashProbability S i) ||
    (fundingExtremePositive S i && ogt (some (S.close i)) (S.emaMedium i))

/-- `consolidation_exit`. -/
def consolidationExitSig (S : StratInput) (i : ℕ) : Bool :=
  consolidation S i && ogt (some (S.close i)) (S.bbMiddle i) && ogt (S.rsi i) (some 50)

/-- `short_exits` before conflict resolution. -/
def shortExits0 (S : StratInput) (i : ℕ) : Bool :=
  bearExitSig S i || stopLossExitShort S i || fundingCover S i ||
    crashProtectionCover S i || consolidationExitSig S i || fundingSqueezeSig S i

/-- `high_risk_exits = high_risk | crash_mode`. -/
def highRiskExits (S : StratInput) (i : ℕ) : Bool :=
  highRisk S i || crashMode S i

/-- `forced_long_exits = high_risk_exits & long_entries`. -/
def forcedLongExits (S : StratInput) (i : ℕ) : Bool :=
  highRiskExits S i && longEntries0 S i

/-- `forced_short_exits = high_risk_exits & short_entries`. -/
def forcedShortExits (S : StratInput) (i : ℕ) : Bool :=
  highRiskExits S i && shortEntries0 S i

/-- `long_entries` after removal of forced-exit conflicts. -/
def longEntries1 (S : StratInput) (i : ℕ) : Bool :=
  longEntries0 S i && !forcedLongExits S i

/-- `short_entries` after removal of forced-exit conflicts. -/
def shortEntries1 (S : StratInput) (i : ℕ) : Bool :=
  shortEntries0 S i && !forcedShortExits S i

/-- `long_exits` with forced exits applied. -/
def longExits1 (S : StratInput) (i : ℕ) : Bool :=
  longExits0 S i || forcedLongExits S i

/-- `short_exits` with forced exits applied. -/
def shortExits1 (S : StratInput) (i : ℕ) : Bool :=
  shortExits0 S i || forcedShortExits S i

/-- Same-direction long conflicts `long_entries & long_exits`. -/
def longConflicts (S : StratInput) (i : ℕ) : Bool :=
  longEntries1 S i && longExits1 S i

/-- `long_entries` after exit-precedence resolution. -/
def longEntries2 (S : StratInput) (i : ℕ) : Bool :=
  longEntries1 S i && !longConflicts S i

/-- Same-direction short conflicts `short_entries & short_exits`. -/
def shortConflicts (S : StratInput) (i : ℕ) : Bool :=
  shortEntries1 S i && shortExits1 S i

/-- `short_entries` after exit-precedence resolution. -/
def shortEntries2 (S : StratInput) (i : ℕ) : Bool :=
  shortEntries1 S i && !shortConflicts S i

/-- `simultaneous_entries = long_entries & short_entries`. -/
def simultaneousEntries (S : StratInput) (i : ℕ) : Bool :=
  longEntries2 S i && shortEntries2 S i

/-- Final long entries after the regime-based disambiguation step. -/
def longEntriesFinal (S : StratInput) (i : ℕ) : Bool :=
  longEntries2 S i && !(simultaneousEntries S i && (bullMarket S i || consolidation S i))

/-- Final short entries after the regime-based disambiguation step. -/
def shortEntriesFinal (S : StratInput) (i : ℕ) : Bool :=
  shortEntries2 S i && !(simultaneousEntries S i && bearMarket S i)

/-- `entries = long_entries | short_entries` (final combined entry signal). -/
def entriesSig (S : StratInput) (i : ℕ) : Bool :=
  longEntriesFinal S i || shortEntriesFinal S i

/-- `exits = long_exits | short_exits` (final combined exit signal). -/
def exitsSig (S : StratInput) (i : ℕ) : Bool :=
  longExits1 S i || shortExits1 S i

/-- `base_size = market_strength * 0.45 + 0.15`. -/
def baseSize (S : StratInput) (i : ℕ) : Option ℚ :=
  (marketStrength S i).map (fun m => m * (9 / 20) + 3 / 20)

/-- Phase-based `crash_phase_multiplier` (the three phases are disjoint). -/
def crashPhaseMultiplier (S : StratInput) (i : ℕ) : ℚ :=
  if lateCrashPhase S i then 4 / 5
  else if midCrashPhase S i then 13 / 10
  else if earlyCrashWarning S i then 7 / 10
  else 1

/-- `vol_percentile = (norm_atr.rank(pct=True) / norm_atr.rolling(50).rank(pct=True)).clip(0.1, 2.0)`. -/
def volPercentile (S : StratInput) (i : ℕ) : Option ℚ :=
  (odiv (fullRankPct S.n (normAtr S) i) (rollingRankPct 50 (normAtr S) i)).map
    (clipQ (1 / 10) 2)

/-- `vol_adjustment = 1.0 - (vol_percentile - 1).clip(0, 0.8)`. -/
def volAdjustment (S : StratInput) (i : ℕ) : Option ℚ :=
  (volPercentile S i).map (fun p => 1 - clipQ 0 (4 / 5) (p - 1))

/-- `funding_adjustment = 1.0 - |funding_stress| * 0.8`. -/
def fundingAdjustment (S : StratInput) (i : ℕ) : ℚ :=
  1 - |fundingStressVal S i| * (4 / 5)

/-- `crash_risk_adjustment` after the three successive mask assignments
(`high_risk → 0.3`, then `med_risk → 0.6`, then `crash_mode → 0.2`). -/
def crashRiskAdjustment (S : StratInput) (i : ℕ) : ℚ :=
  if crashMode S i then 1 / 5
  else if medRisk S i then 3 / 5
  else if highRisk S i then 3 / 10
  else 1

/-- `regime_adjustment` (`default 0.8`, `bull → 1.0`, then `consolidation → 0.7`). -/
def regimeAdjustment (S : StratInput) (i : ℕ) : ℚ :=
  if consolidation S i then 7 / 10
  else if bullMarket S i then 1
  else 4 / 5

/-- `size_multiplier` as the product of all adjustments. -/
def sizeMultiplier0 (S : StratInput) (i : ℕ) : Option ℚ :=
  omap2
    (fun b v =>
      b * v * crashPhaseMultiplier S i * fundingAdjustment S i *
        crashRiskAdjustment S i * regimeAdjustment S i)
    (baseSize S i) (volAdjustment S i)

/-- `extreme_vol = norm_atr > norm_atr.rolling(50).quantile(0.9)`. -/
def extremeVol (S : StratInput) (i : ℕ) : Bool :=
  ogt (normAtr S i) (rollingQuantile 50 (9 / 10) (normAtr S) i)

/-- `size_multiplier[extreme_vol] *= 0.5`. -/
def sizeMultiplier1 (S : StratInput) (i : ℕ) : Option ℚ :=
  if extremeVol S i then (sizeMultiplier0 S i).map (fun s => s * (1 / 2))
  else sizeMultiplier0 S i

/-- `recovery_condition`. -/
def recoveryCondition (S : StratInput) (i : ℕ) : Bool :=
  bshift 1 (crashMode S) i && earlyCrashWarning S i && !crashMode S i &&
    fundingExtremeNegative S i

/-- `size_multiplier[recovery] = np.maximum(size_multiplier[recovery], 0.4)`. -/
def sizeMultiplier2 (S : StratInput) (i : ℕ) : Option ℚ :=
  if recoveryCondition S i then (sizeMultiplier1 S i).map (fun s => max s (2 / 5))
  else sizeMultiplier1 S i

/-- `max_position` (`default 0.7`, `bull → 0.8`, then `high_risk|crash → 0.3`). -/
def maxPosition (S : StratInput) (i : ℕ) : ℚ :=
  if highRisk S i || crashMode S i then 3 / 10
  else if bullMarket S i then 4 / 5
  else 7 / 10

/-- `position_size = size_multiplier.clip(0.1, max_position)`. -/
def positionSize (S : StratInput) (i : ℕ) : Option ℚ :=
  (sizeMultiplier2 S i).map (clipQ (1 / 10) (maxPosition S i))

/-- `stop_distance = 1.5 + (norm_atr - vol_low) / (vol_high - vol_low) * 1.5`
before clipping; the quotient is undefined when the percentile range is zero. -/
def stopDistance0 (S : StratInput) (i : ℕ) : Option ℚ :=
  (odiv (osub (normAtr S i) (volLowThreshold S i))
      (osub (volHighThreshold S i) (volLowThreshold S i))).map
    (fun x => 3 / 2 + x * (3 / 2))

/-- `stop_distance.clip(1.5, 4.0)`. -/
def stopDistance1 (S : StratInput) (i : ℕ) : Option ℚ :=
  (stopDistance0 S i).map (clipQ (3 / 2) 4)

/-- `high_vol_stop_mult` (`default 1.0`, `high_volatility → 1.3`, then `crash_mode → 1.5`). -/
def highVolStopMult (S : StratInput) (i : ℕ) : ℚ :=
  if crashMode S i then 3 / 2
  else if highVolatility S i then 13 / 10
  else 1

/-- `stop_distance * high_vol_stop_mult`. -/
def stopDistanceFinal (S : StratInput) (i : ℕ) : Option ℚ :=
  (stopDistance1 S i).map (fun d => d * highVolStopMult S i)

/-- `stop_percents = (atr * stop_distance / close * 100).clip(1.0, 8.0)`. -/
def stopLossPct (S : StratInput) (i : ℕ) : Option ℚ :=
  ((omap2 (fun a d => a * d) (S.atr i) (stopDistanceFinal S i)).bind
      (fun x => if S.close i = 0 then none else some (x / S.close i * 100))).map
    (clipQ 1 8)

/-- The fixed per-factor weights of the eight crash-risk factors, in the order
of the `crash_factors` list. -/
def crashWeights : List ℚ :=
  [1 / 4, 1 / 5, 3 / 20, 1 / 5, 1 / 5, 1 / 10, 1 / 10, 1 / 10]

/-- A one-bar input whose only active risk factor is extreme positive funding
(`funding_rate = 0.001 > 0.00015`), giving a nonzero raw crash score on bar 0. -/
def exC3 : StratInput :=
  ⟨1, fun _ => 100, fun _ => 100, fun _ => 1 / 1000, fun _ => some 50, fun _ => some 0,
   fun _ => some 110, fun _ => some 100, fun _ => some 90, fun _ => some 1,
   fun _ => some 100, fun _ => some 100, fun _ => some 100, fun _ => some 100, fun _ => true⟩

/-- A 33-bar input: flat at 100, then an accelerating three-bar drop with an
ATR spike and a funding jump on the last bar, firing seven of the eight risk
factors simultaneously at bar 32. -/
def exC4 : StratInput :=
  ⟨33,
   fun j => if j ≤ 29 then 100 else if j = 30 then 99 else if j = 31 then 97 else 94,
   fun _ => 100,
   fun j => if j ≤ 31 then 1 / 10000 else 1 / 1000,
   fun _ => some 50, fun _ => some 0,
   fun _ => some 110, fun _ => some 100, fun _ => some 90,
   fun j => if j ≤ 31 then some 1 else some 50,
   fun _ => some 100, fun _ => some 100, fun _ => some 200,
   fun _ => some 200, fun _ => true⟩

/-- A 33-bar input with a sustained accelerating crash over bars 27–32 (price
drop, ATR spike, extreme funding), driving the smoothed crash probability to 1
and hence `high_risk` at bar 32. -/
def exC5 : StratInput :=
  ⟨33,
   fun j => if j ≤ 26 then 100 else if j = 27 then 199 / 2 else if j = 28 then 197 / 2
            else if j = 29 then 97 else if j = 30 then 95 else if j = 31 then 185 / 2
            else 179 / 2,
   fun _ => 100,
   fun j => if j ≤ 28 then 1 / 10000 else 1 / 1000,
   fun _ => some 50, fun _ => some 0,
   fun _ => some 110, fun _ => some 100, fun _ => some 90,
   fun j => if j ≤ 28 then some 1 else some 50,
   fun _ => some 100, fun _ => some 100, fun _ => some 200,
   fun _ => some 200, fun _ => true⟩

/-- A 27-bar bull-market input whose bar 26 fires both a volatility-breakout
long entry and a funding-divergence short entry, with no exits and no high
risk, so both entries survive to the regime disambiguation step. -/
def exC6 : StratInput :=
  ⟨27,
   fun j => 100 + 2 * (j : ℚ),
   fun _ => 200,
   fun j => (140 - (j : ℚ)) / 1000000,
   fun _ => some 60, fun _ => some 1,
   fun j => if j = 26 then some (100 + 2 * (j : ℚ) + 50) else some (100 + 2 * (j : ℚ) + 1),
   fun j => some (100 + 2 * (j : ℚ)),
   fun j => if j = 26 then some (100 + 2 * (j : ℚ) - 50) else some (100 + 2 * (j : ℚ) - 1),
   fun _ => some 1,
   fun j => some ((100 + 2 * (j : ℚ)) * (999 / 1000)),
   fun j => some ((100 + 2 * (j : ℚ)) * (995 / 1000)),
   fun j => some ((100 + 2 * (j : ℚ)) * (99 / 100)),
   fun _ => some 100, fun _ => true⟩

/-- Close prices of the `exC7` input: flat, then a five-bar accelerating drop
with a small uptick on the last bar. -/
def exC7close : ℕ → ℚ :=
  fun j => if j ≤ 26 then 100 else if j = 27 then 99 else if j = 28 then 97
           else if j = 29 then 94 else if j = 30 then 90 else if j = 31 then 85 else 851 / 10

/-- Funding rates of the `exC7` input: slowly rising, then a wiggle in the
last four bars making `funding_momentum < 0` while `funding_acceleration`
tops its rolling 95th percentile at bar 32. -/
def exC7funding : ℕ → ℚ :=
  fun j => if j = 29 then -(154 / 1000000) else if j = 30 then -(158 / 1000000)
           else if j = 31 then -(161 / 1000000) else if j = 32 then -(157 / 1000000)
           else (2 * (j : ℚ) - 200) / 1000000

/-- A 33-bar input whose bar 32 fires, before any conflict resolution, a long
entry (consolidation mean reversion), a long exit (stop loss), a short entry
(early-crash short) and a short exit (funding cover) simultaneously. -/
def exC7 : StratInput :=
  ⟨33,
   exC7close,
   fun _ => 200,
   exC7funding,
   fun j => some (if j = 32 then 35 else 30),
   fun _ => some 0,
   fun j => some (exC7close j + 45 - (j : ℚ)),
   fun j => some (exC7close j + 5),
   fun j => some (exC7close j - 10),
   fun j => if 13 ≤ j ∧ j ≤ 16 then some (exC7close j / 50)
            else if j = 32 then some (exC7close j * 3 / 250)
            else some (exC7close j / 100),
   fun j => some (exC7close j + 30),
   fun j => some (exC7close j + 31),
   fun j => some (exC7close j * (99 / 100)),
   fun _ => some 100, fun _ => true⟩

/-- A 55-bar input with constant price and constant ATR, so `norm_atr` is
constant and its rolling 25th and 75th percentiles coincide from bar 49 on:
the stop-distance denominator `vol_high_threshold - vol_low_threshold` is 0. -/
def exC8 : StratInput :=
  ⟨55, fun _ => 100, fun _ => 100, fun _ => 0, fun _ => some 50, fun _ => some 0,
   fun _ => some 110, fun _ => some 100, fun _ => some 90, fun _ => some 1,
   fun _ => some 100, fun _ => some 100, fun _ => some 100, fun _ => some 100, fun _ => true⟩

/-- A 50-bar input with constant price and linearly increasing ATR, long
enough for every window in the sizing and stop computation (including the
50-bar rolling rank) to be defined on bar 49. -/
def exC9 : StratInput :=
  ⟨50, fun _ => 100, fun _ => 100, fun _ => 0, fun _ => some 50, fun _ => some 0,
   fun _ => some 110, fun _ => some 100, fun _ => some 90,
   fun j => some (1 + (j : ℚ) / 100),
   fun _ => some 100, fun _ => some 100, fun _ => some 100, fun _ => some 100, fun _ => true⟩

/-- An 11-bar steadily rising input whose bar 10 fires a consolidation long
entry (which survives resolution) together with a short-side stop-loss exit:
the final collapsed entry and exit signals are both true on that bar. -/
def exC10 : StratInput :=
  ⟨11, fun j => 100 + (j : ℚ), fun _ => 200, fun _ => 0,
   fun j => some (30 + (j : ℚ) / 2), fun _ => some 0,
   fun j => some (100 + (j : ℚ) + (20 - (j : ℚ))), fun j => some (105 + (j : ℚ)),
   fun j => some (90 + (j : ℚ)), fun _ => some 1,
   fun j => some (98 + (j : ℚ)), fun j => some (99 + (j : ℚ)),
   fun j => some (97 + (j : ℚ)), fun _ => some 100, fun _ => true⟩

set_option maxRecDepth 80000

set_option maxHeartbeats 2000000

/-- `clipQ lo hi x` never exceeds the upper bound. -/
theorem clipQ_le_right (lo hi x : ℚ) : clipQ lo hi x ≤ hi :=
  min_le_left _ _

/-- `clipQ lo hi x` is at least the lower bound when the bounds are ordered. -/
theorem clipQ_le_left (lo hi x : ℚ) (h : lo ≤ hi) : lo ≤ clipQ lo hi x :=
  le_min h (le_max_left _ _)

/-- The clipped raw crash score is nonnegative. -/
theorem rawProb_nonneg (S : StratInput) (i : ℕ) : 0 ≤ rawProb S i :=
  clipQ_le_left _ _ _ (by norm_num)

/-- The clipped raw crash score is at most one. -/
theorem rawProb_le_one (S : StratInput) (i : ℕ) : rawProb S i ≤ 1 :=
  clipQ_le_right _ _ _

/-- Sequencing a list of defined values succeeds and returns the values. -/
theorem seqO_map_some (g : ℕ → ℚ) (l : List ℕ) :
    seqO (l.map fun j => some (g j)) = some (l.map g) := by
  induction l with
  | nil => rfl
  | cons a t ih => simp [seqO, ih]

/-- The mean of a nonempty list of values in `[0, 1]` is in `[0, 1]`. -/
theorem meanL_bounds {xs : List ℚ} (hne : xs ≠ []) (hb : ∀ x ∈ xs, 0 ≤ x ∧ x ≤ 1) :
    0 ≤ meanL xs ∧ meanL xs ≤ 1 := by
  have hlen : 0 < xs.length := List.length_pos.mpr hne
  have hlenq : (0 : ℚ) < xs.length := by exact_mod_cast hlen
  unfold meanL
  constructor
  · exact div_nonneg (List.sum_nonneg fun x hx => (hb x hx).1) hlenq.le
  · rw [div_le_one hlenq]
    have h := List.sum_le_card_nsmul xs 1 fun x hx => (hb x hx).2
    simpa using h

/-- A bar cannot be both a bull and a bear bar: the former needs
`market_strength > 0.5`, the latter `market_strength < 0.3`. -/
theorem bull_bear_exclusive (S : StratInput) (i : ℕ) :
    ¬(bullMarket S i = true ∧ bearMarket S i = true) := by
  rintro ⟨hb, he⟩
  simp only [bullMarket, Bool.and_eq_true] at hb
  simp only [bearMarket, Bool.and_eq_true] at he
  obtain ⟨⟨hb1, -⟩, -⟩ := hb
  obtain ⟨⟨he1, -⟩, -⟩ := he
  cases hms : marketStrength S i with
  | none => rw [hms] at hb1; exact absurd hb1 (by simp [ogt])
  | some v =>
    rw [hms] at hb1 he1
    have h1 : (1 / 2 : ℚ) < v := by simpa [ogt] using hb1
    have h2 : v < 3 / 10 := by simpa [olt] using he1
    linarith

/-- C1: for every input and every bar, including all warm-up bars, the
computed `crash_probability` is a rational number in `[0, 1]`; it is total
(never NaN) by construction, mirroring the `fillna(0)` in the source. -/
theorem C1_crash_probability_in_unit_interval (S : StratInput) (i : ℕ) :
    0 ≤ crashProbability S i ∧ crashProbability S i ≤ 1 := by
  unfold crashProbability rollingMean
  by_cases h4 : i + 1 < 4
  · simp [h4, ofill]
  · rw [if_neg h4,
      show windowL 4 (fun j => some (rawProb S j)) i =
        (List.range 4).map fun j => some (rawProb S (i - j)) from rfl,
      seqO_map_some]
    simp only [Option.map_some, ofill]
    apply meanL_bounds
    · simp
    · intro x hx
      obtain ⟨j, -, rfl⟩ := List.mem_map.mp hx
      exact ⟨rawProb_nonneg S _, rawProb_le_one S _⟩

/-- C2: on every bar — also on bars where `market_strength` or
`momentum_strength` is NaN — exactly one of the four regime flags
`bull_market`, `bear_market`, `consolidation`, `crash_mode` is set. -/
theorem C2_regime_partition (S : StratInput) (i : ℕ) :
    (bullMarket S i).toNat + (bearMarket S i).toNat + (consolidation S i).toNat +
      (crashMode S i).toNat = 1 := by
  by_cases hr : highRisk S i = true
  · have hb : bullMarket S i = false := by simp [bullMarket, hr]
    have he : bearMarket S i = false := by simp [bearMarket, hr]
    simp [consolidation, crashMode, hb, he, hr]
  · rw [Bool.not_eq_true] at hr
    cases hb : bullMarket S i with
    | true =>
      have he : bearMarket S i = false := by
        cases he : bearMarket S i with
        | true => exact absurd ⟨hb, he⟩ (bull_bear_exclusive S i)
        | false => rfl
      simp [consolidation, crashMode, hb, he, hr]
    | false =>
      cases he : bearMarket S i with
      | true => simp [consolidation, crashMode, hb, he, hr]
      | false => simp [consolidation, crashMode, hb, he, hr]

/-- C3 counterexample: on the concrete input `exC3` the raw crash score of
bar 0 is `0.2`, and the mean of the raw scores available so far at bar 0 is
therefore `0.2`, but the smoothed `crash_probability` of bar 0 is `0`: the
smoothing does not use `min_periods=1` semantics. -/
theorem C3_counterexample :
    rawProb exC3 0 = 1 / 5 ∧ crashProbability exC3 0 = 0 ∧
      crashProbability exC3 0 ≠ rawProb exC3 0 := by
  have h1 : rawProb exC3 0 = 1 / 5 := by with_unfolding_all rfl
  have h2 : crashProbability exC3 0 = 0 := by with_unfolding_all rfl
  refine ⟨h1, h2, ?_⟩
  rw [h1, h2]
  norm_num

/-- C3 amended: the crash-score smoothing is a 4-bar rolling mean with the
pandas default `min_periods=4` followed by `fillna(0)`: the first three bars'
smoothed `crash_probability` is `0` regardless of the raw scores, and from
bar 3 on it equals the mean of the last four raw scores. -/
theorem C3_amended_smoothing (S : StratInput) (i : ℕ) :
    (i < 3 → crashProbability S i = 0) ∧
      (3 ≤ i → crashProbability S i =
        (rawProb S i + rawProb S (i - 1) + rawProb S (i - 2) + rawProb S (i - 3)) / 4) := by
  constructor
  · intro h
    unfold crashProbability rollingMean
    rw [if_pos (by omega)]
    rfl
  · intro h
    unfold crashProbability rollingMean
    rw [if_neg (by omega),
      show windowL 4 (fun j => some (rawProb S j)) i =
        (List.range 4).map fun j => some (rawProb S (i - j)) from rfl,
      seqO_map_some,
      show List.range 4 = [0, 1, 2, 3] from by decide,
      show ofill 0 (Option.map meanL (some (List.map (fun j => rawProb S (i - j)) [0, 1, 2, 3]))) =
        meanL [rawProb S i, rawProb S (i - 1), rawProb S (i - 2), rawProb S (i - 3)] from rfl]
    unfold meanL
    simp only [List.sum_cons, List.sum_nil, List.length_cons, List.length_nil]
    push_cast
    ring

/-- C3 amended, witness: on the concrete input `exC3`, bar 2 (a warm-up bar)
has smoothed probability 0 and bar 3 the mean of the first four raw scores. -/
theorem C3_amended_witness :
    crashProbability exC3 2 = 0 ∧
      crashProbability exC3 3 =
        (rawProb exC3 3 + rawProb exC3 2 + rawProb exC3 1 + rawProb exC3 0) / 4 :=
  ⟨(C3_amended_smoothing exC3 2).1 (by norm_num),
   (C3_amended_smoothing exC3 3).2 (by norm_num)⟩

/-- C4 counterexample: the eight fixed factor weights sum to `1.3`, not at
most `1`, and on the concrete input `exC4` the raw weighted sum at bar 32 is
`1.15 > 1` before the explicit `clip(0, 1)`. -/
theorem C4_counterexample :
    crashWeights.sum = 13 / 10 ∧ ¬crashWeights.sum ≤ 1 ∧
      crashFactorSum exC4 32 = 23 / 20 ∧ ¬crashFactorSum exC4 32 ≤ 1 := by
  have h1 : crashWeights.sum = 13 / 10 := by
    simp [crashWeights]
    norm_num
  have h2 : crashFactorSum exC4 32 = 23 / 20 := by with_unfolding_all rfl
  refine ⟨h1, ?_, h2, ?_⟩
  · rw [h1]; norm_num
  · rw [h2]; norm_num

/-- C4 amended: the weights sum to `1.3`, so before clamping the raw weighted
sum is only guaranteed to lie in `[0, 1.3]`; boundedness of `raw_prob` in
`[0, 1]` is enforced by the explicit `clip(0, 1)`, not by the weights. -/
theorem C4_amended_weight_bound (S : StratInput) (i : ℕ) :
    0 ≤ crashFactorSum S i ∧ crashFactorSum S i ≤ crashWeights.sum ∧
      0 ≤ rawProb S i ∧ rawProb S i ≤ 1 := by
  have hterm : ∀ (b : Bool) (w : ℚ), 0 ≤ w → 0 ≤ b2q b * w ∧ b2q b * w ≤ w := by
    intro b w hw
    cases b <;> constructor <;> simp [b2q, hw]
  have hsum : crashWeights.sum = 13 / 10 := by
    simp [crashWeights]
    norm_num
  have h1 := hterm (volCascade1h S i || volExpansion4h S i) (1 / 4) (by norm_num)
  have h2 := hterm (negMomentum S i) (1 / 5) (by norm_num)
  have h3 := hterm (volumeDiv S i) (3 / 20) (by norm_num)
  have h4 := hterm (trendExhaustionMS S i) (1 / 5) (by norm_num)
  have h5 := hterm (fundingStressSignal S i) (1 / 5) (by norm_num)
  have h6 := hterm (fundingAccelerationRising S i) (1 / 10) (by norm_num)
  have h7 := hterm (ogt (fundingVelocity S i) (rollingQuantile 20 (9 / 10) (fundingVelocity S) i))
    (1 / 10) (by norm_num)
  have h8 := hterm (crossTimeframeFundingDivergence S i) (1 / 10) (by norm_num)
  refine ⟨?_, ?_, rawProb_nonneg S i, rawProb_le_one S i⟩
  · unfold crashFactorSum volCascadeFactor negMomentumFactor volumeDivFactor
      trendExhaustionFactor fundingStressFactor fundingAccelRisingFactor
      fundingVelocityFactor crossTimeframeFundingFactor
    linarith [h1.1, h2.1, h3.1, h4.1, h5.1, h6.1, h7.1, h8.1]
  · rw [hsum]
    unfold crashFactorSum volCascadeFactor negMomentumFactor volumeDivFactor
      trendExhaustionFactor fundingStressFactor fundingAccelRisingFactor
      fundingVelocityFactor crossTimeframeFundingFactor
    linarith [h1.2, h2.2, h3.2, h4.2, h5.2, h6.2, h7.2, h8.2]

/-- C5: on every bar where `high_risk` (equivalently `crash_mode`) holds, the
final combined exit signal is true and both resolved entry signals are false,
whatever entry predicates fired. -/
theorem C5_high_risk_forces_exit (S : StratInput) (i : ℕ)
    (h : (highRisk S i || crashMode S i) = true) :
    exitsSig S i = true ∧ longEntriesFinal S i = false ∧ shortEntriesFinal S i = false := by
  have hr : highRisk S i = true := by simpa [crashMode, Bool.or_self] using h
  have hlx : longExits1 S i = true := by
    simp [longExits1, longExits0, crashProtectionExit, hr]
  have hle : longEntries1 S i = false := by
    simp [longEntries1, forcedLongExits, highRiskExits, crashMode, hr]
  have hse : shortEntries1 S i = false := by
    simp [shortEntries1, forcedShortExits, highRiskExits, crashMode, hr]
  refine ⟨?_, ?_, ?_⟩
  · simp [exitsSig, hlx]
  · simp [longEntriesFinal, longEntries2, longConflicts, hle]
  · simp [shortEntriesFinal, shortEntries2, shortConflicts, hse]

/-- C5 witness: on the concrete input `exC5`, bar 32 is a high-risk bar, the
combined exit is forced and both entries are suppressed. -/
theorem C5_witness :
    (highRisk exC5 32 || crashMode exC5 32) = true ∧
      (exitsSig exC5 32 = true ∧ longEntriesFinal exC5 32 = false ∧
        shortEntriesFinal exC5 32 = false) :=
  ⟨by with_unfolding_all rfl,
   C5_high_risk_forces_exit exC5 32 (by with_unfolding_all rfl)⟩

/-- C6 (code bug): on the concrete bull-market input `exC6`, bar 26 carries
simultaneous surviving long and short entries, and the code drops the long
entry and keeps the short one — the opposite of the claim and of the code's
own comment. -/
theorem C6_bull_simultaneous_drops_long :
    bullMarket exC6 26 = true ∧ longEntries2 exC6 26 = true ∧
      shortEntries2 exC6 26 = true ∧ simultaneousEntries exC6 26 = true ∧
      longEntriesFinal exC6 26 = false ∧ shortEntriesFinal exC6 26 = true := by
  refine ⟨?_, ?_, ?_, ?_, ?_, ?_⟩ <;> with_unfolding_all rfl

/-- C7: per direction, when both the entry and the exit predicate sets of that
direction fire on a bar before resolution, the resolved signals of that
direction are exit true, entry false. -/
theorem C7_exit_precedence (S : StratInput) (i : ℕ) :
    (longEntries0 S i = true → longExits0 S i = true →
      longExits1 S i = true ∧ longEntriesFinal S i = false) ∧
    (shortEntries0 S i = true → shortExits0 S i = true →
      shortExits1 S i = true ∧ shortEntriesFinal S i = false) := by
  constructor
  · intro he hx
    have hlx : longExits1 S i = true := by simp [longExits1, hx]
    refine ⟨hlx, ?_⟩
    cases hf : forcedLongExits S i with
    | true =>
      have h1 : longEntries1 S i = false := by simp [longEntries1, hf]
      simp [longEntriesFinal, longEntries2, longConflicts, h1]
    | false =>
      have h1 : longEntries1 S i = true := by simp [longEntries1, he, hf]
      simp [longEntriesFinal, longEntries2, longConflicts, h1, hlx]
  · intro he hx
    have hsx : shortExits1 S i = true := by simp [shortExits1, hx]
    refine ⟨hsx, ?_⟩
    cases hf : forcedShortExits S i with
    | true =>
      have h1 : shortEntries1 S i = false := by simp [shortEntries1, hf]
      simp [shortEntriesFinal, shortEntries2, shortConflicts, h1]
    | false =>
      have h1 : shortEntries1 S i = true := by simp [shortEntries1, he, hf]
      simp [shortEntriesFinal, shortEntries2, shortConflicts, h1, hsx]

/-- C7 witness: on the concrete input `exC7`, bar 32 fires entry and exit for
both directions before resolution, and each direction resolves to exit true,
entry false. -/
theorem C7_witness :
    ((longEntries0 exC7 32 = true ∧ longExits0 exC7 32 = true) ∧
      longExits1 exC7 32 = true ∧ longEntriesFinal exC7 32 = false) ∧
    ((shortEntries0 exC7 32 = true ∧ shortExits0 exC7 32 = true) ∧
      shortExits1 exC7 32 = true ∧ shortEntriesFinal exC7 32 = false) :=
  ⟨⟨⟨by with_unfolding_all rfl, by with_unfolding_all rfl⟩,
    (C7_exit_precedence exC7 32).1 (by with_unfolding_all rfl) (by with_unfolding_all rfl)⟩,
   ⟨⟨by with_unfolding_all rfl, by with_unfolding_all rfl⟩,
    (C7_exit_precedence exC7 32).2 (by with_unfolding_all rfl) (by with_unfolding_all rfl)⟩⟩

/-- C8 (code bug): on the concrete input `exC8`, the volatility percentile
range at bar 54 is exactly zero, and instead of falling back to the minimum
stop distance the code divides by the zero range, so the stop distance and
`stop_loss_pct` are undefined (NaN) on that bar. -/
theorem C8_zero_range_stop_nan :
    osub (volHighThreshold exC8 54) (volLowThreshold exC8 54) = some 0 ∧
      stopDistance0 exC8 54 = none ∧ stopLossPct exC8 54 = none := by
  refine ⟨?_, ?_, ?_⟩ <;> with_unfolding_all rfl

/-- C9: whenever the computed `position_size` is defined (not NaN) it lies in
`[0.1, max_position]` with the regime-dependent `max_position` of 0.3 under
high risk, 0.8 in bull, 0.7 otherwise — hence in `[0.1, 0.8]` — and whenever
`stop_loss_pct` is defined it lies in `[1.0, 8.0]`. -/
theorem C9_sizing_and_stop_bounds (S : StratInput) (i : ℕ) :
    (∀ v, positionSize S i = some v →
      1 / 10 ≤ v ∧ v ≤ maxPosition S i ∧ v ≤ 4 / 5) ∧
    (∀ w, stopLossPct S i = some w → 1 ≤ w ∧ w ≤ 8) := by
  constructor
  · intro v hv
    unfold positionSize at hv
    obtain ⟨s, -, rfl⟩ := Option.map_eq_some'.mp hv
    have hmax1 : (1 / 10 : ℚ) ≤ maxPosition S i := by
      unfold maxPosition; split_ifs <;> norm_num
    have hmax2 : maxPosition S i ≤ 4 / 5 := by
      unfold maxPosition; split_ifs <;> norm_num
    exact ⟨clipQ_le_left _ _ _ hmax1, clipQ_le_right _ _ _,
      le_trans (clipQ_le_right _ _ _) hmax2⟩
  · intro w hw
    unfold stopLossPct at hw
    obtain ⟨a, -, rfl⟩ := Option.map_eq_some'.mp hw
    exact ⟨clipQ_le_left _ _ _ (by norm_num), clipQ_le_right _ _ _⟩

/-- C9 witness: on the concrete input `exC9`, bar 49 has a defined position
size `0.1` and stop-loss percentage `7.26375`, within the claimed bounds. -/
theorem C9_witness :
    (positionSize exC9 49 = some (1 / 10) ∧
      1 / 10 ≤ (1 / 10 : ℚ) ∧ (1 / 10 : ℚ) ≤ maxPosition exC9 49 ∧ (1 / 10 : ℚ) ≤ 4 / 5) ∧
    (stopLossPct exC9 49 = some (5811 / 800) ∧
      1 ≤ (5811 / 800 : ℚ) ∧ (5811 / 800 : ℚ) ≤ 8) := by
  have hp : positionSize exC9 49 = some (1 / 10) := by with_unfolding_all rfl
  have hs : stopLossPct exC9 49 = some (5811 / 800) := by with_unfolding_all rfl
  have h1 := (C9_sizing_and_stop_bounds exC9 49).1 (1 / 10) hp
  have h2 := (C9_sizing_and_stop_bounds exC9 49).2 (5811 / 800) hs
  exact ⟨⟨hp, h1.1, h1.2.1, h1.2.2⟩, hs, h2.1, h2.2⟩

/-- C10: the final collapsed pair is not mutually exclusive: on the concrete
valid input `exC10` (positive prices, positive volumes), bar 10 carries a
surviving long entry together with a firing short-side exit, so the combined
`entry_signal` and `exit_signal` are both true on that bar. -/
theorem C10_entry_and_exit_coincide :
    longEntriesFinal exC10 10 = true ∧ shortExits1 exC10 10 = true ∧
      entriesSig exC10 10 = true ∧ exitsSig exC10 10 = true := by
  refine ⟨?_, ?_, ?_, ?_⟩ <;> with_unfolding_all rfl

end AlertBot
